import Mathlib

/-!
Shallow embedding of the report-assembly core of the investment-property
analyzer (`src/app.py`): formatting helpers, threshold classification,
the section-level status labels and cell tints of `generate_pdf`, the
filename sanitization of `generate_report` and `send_email`, and the
credential gating of `send_email`.

Conventions of the embedding:
* Python dict payloads become association lists `List (String × Value)`;
  `dict.get(key, default)` returns the stored value when the key is present
  (even when that value is `None`) and the default only when the key is absent.
* Numbers are rationals; Python `None` is `Value.null`.
* A Python expression that would raise (`None * x`, `f"{None:.2f}"`,
  `None >= 0.08`, formatting a plain string with a numeric format spec)
  is modelled as `Except.error`; defined expressions are `Except.ok`.
* Brand colors are an enumeration; `SUCCESS`/`WARNING`/`DANGER` are the
  favorable / cautionary / unfavorable tints, `CYAN` the informational one.
-/

namespace App

/-- The brand colors declared at the top of `app.py`. -/
inductive Color where
  | NAVY
  | CYAN
  | WHITE
  | LIGHT_GRAY
  | DARK_GRAY
  | SUCCESS
  | WARNING
  | DANGER
deriving DecidableEq, Repr

/-- A JSON-ish field value of the request payload: number, string, boolean
or `None`. -/
inductive Value where
  | num (q : ℚ)
  | str (s : String)
  | bool (b : Bool)
  | null
deriving DecidableEq, Repr

/-- The request payload: a flat mapping from field names to values. -/
abbrev Data := List (String × Value)

/-- `data.get(key, dflt)`: the stored value when the key is present (even a
stored `None`), the default otherwise. -/
def get (data : Data) (key : String) (dflt : Value) : Value :=
  match data.find? (fun kv => kv.fst = key) with
  | some kv => kv.snd
  | none => dflt

/-- Python truthiness of a field value, as used by
`'PASS' if data.get('rule1Pass', False) else 'FAIL'`. -/
def truthy : Value → Bool
  | Value.num q => q ≠ 0
  | Value.str s => s ≠ ""
  | Value.bool b => b
  | Value.null => false

/-- Coercion of a value to a number, as performed implicitly by Python
arithmetic (`v * 100`), comparisons (`v >= 0.08`) and numeric format specs
(`f"{v:.2f}"`): booleans count as 0/1, strings and `None` raise. -/
def toNum : Value → Except String ℚ
  | Value.num q => Except.ok q
  | Value.bool b => Except.ok (if b then 1 else 0)
  | Value.str _ => Except.error "TypeError: str is not a number"
  | Value.null => Except.error "TypeError: NoneType is not a number"

/-- Insert thousands separators into a reversed digit list (least significant
digit first), as the `,` flag of a Python format spec does. -/
def commasRev : List Char → List Char
  | a :: b :: c :: d :: rest => a :: b :: c :: ',' :: commasRev (d :: rest)
  | l => l

/-- Thousands-group a digit string: `"1234567"` becomes `"1,234,567"`. -/
def insertCommas (s : String) : String :=
  String.mk (commasRev s.data.reverse).reverse

/-- `format_currency` (app.py lines 83-87) on integral amounts:
`None` gives `"$0"`, otherwise `f"${amount:,.0f}"`, whose sign (as Python
renders it) sits between the dollar sign and the digits. -/
def format_currency : Option ℤ → String
  | none => "$0"
  | some a =>
    if a < 0 then "$-" ++ insertCommas (toString a.natAbs)
    else "$" ++ insertCommas (toString a.natAbs)

/-- Whether the warn-threshold guard `warn_threshold and value >= warn_threshold`
(resp. `<=`) of `get_status_color` fires: a missing (`None`) or zero threshold
is falsy in Python, so the guard is skipped. -/
def warnHit (value : ℚ) (warn : Option ℚ) (geDir : Bool) : Bool :=
  match warn with
  | none => false
  | some w =>
    if w = 0 then false
    else if geDir then decide (value ≥ w) else decide (value ≤ w)

/-- `get_status_color` (app.py lines 97-110). -/
def get_status_color (value good_threshold : ℚ) (warn_threshold : Option ℚ)
    (higher_is_better : Bool) : Color :=
  if higher_is_better then
    if value ≥ good_threshold then Color.SUCCESS
    else if warnHit value warn_threshold true then Color.WARNING
    else Color.DANGER
  else
    if value ≤ good_threshold then Color.SUCCESS
    else if warnHit value warn_threshold false then Color.WARNING
    else Color.DANGER

/-- Cap-rate status label (app.py line 288):
`'GOOD' if cap_rate >= 0.08 else ('AVERAGE' if cap_rate >= 0.06 else 'LOW')`. -/
def capRateStatus (cap_rate : ℚ) : String :=
  if cap_rate ≥ 8/100 then "GOOD" else if cap_rate ≥ 6/100 then "AVERAGE" else "LOW"

/-- Cash-on-cash status label (app.py line 289). -/
def cashOnCashStatus (coc : ℚ) : String :=
  if coc ≥ 10/100 then "GOOD" else if coc ≥ 6/100 then "AVERAGE" else "LOW"

/-- DSCR status label (app.py line 290). -/
def dscrStatus (dscr : ℚ) : String :=
  if dscr ≥ 125/100 then "STRONG" else if dscr ≥ 1 then "MARGINAL" else "WEAK"

/-- GRM status label (app.py line 291): `'GOOD' if grm <= 12 else 'HIGH'`. -/
def grmStatus (grm : ℚ) : String :=
  if grm ≤ 12 then "GOOD" else "HIGH"

/-- 1%-rule status label (app.py line 292): `'PASS' if one_pct >= 0.01 else 'FAIL'`. -/
def onePercentStatus (one_pct : ℚ) : String :=
  if one_pct ≥ 1/100 then "PASS" else "FAIL"

/-- The status-column tint loop of the Key Metrics table (app.py lines 310-317):
`GOOD`/`STRONG`/`PASS` get `SUCCESS`, `AVERAGE`/`MARGINAL` get `WARNING`,
everything else `DANGER`. -/
def metric_status_color (status : String) : Color :=
  if status = "GOOD" ∨ status = "STRONG" ∨ status = "PASS" then Color.SUCCESS
  else if status = "AVERAGE" ∨ status = "MARGINAL" then Color.WARNING
  else Color.DANGER

/-- 1%-rule row result (app.py line 327). -/
def rule1Label (b : Bool) : String := if b then "PASS" else "FAIL"

/-- 2%-rule row result (app.py line 328). -/
def rule2Label (b : Bool) : String := if b then "PASS" else "FAIL"

/-- 50%-rule row result (app.py line 329): its false branch is `REVIEW`. -/
def rule50Label (b : Bool) : String := if b then "PASS" else "REVIEW"

/-- 70%-rule row result (app.py line 330). -/
def rule70Label (b : Bool) : String := if b then "PASS" else "FAIL"

/-- Cash-flow-positive row result (app.py line 331). -/
def cashFlowLabel (b : Bool) : String := if b then "YES" else "NO"

/-- The result-column tint loop of the Quick Rules table (app.py lines 348-364):
`PASS`/`YES` get `SUCCESS`, `REVIEW` gets `WARNING`, everything else `DANGER`. -/
def rule_result_color (result : String) : Color :=
  if result = "PASS" ∨ result = "YES" then Color.SUCCESS
  else if result = "REVIEW" then Color.WARNING
  else Color.DANGER

/-- Verdict cell tint (app.py line 371):
`SUCCESS if verdict == 'STRONG BUY' else (CYAN if verdict == 'CONSIDER' else
(WARNING if verdict == 'REVIEW' else DANGER))`. -/
def verdict_color (verdict : String) : Color :=
  if verdict = "STRONG BUY" then Color.SUCCESS
  else if verdict = "CONSIDER" then Color.CYAN
  else if verdict = "REVIEW" then Color.WARNING
  else Color.DANGER

/-- `cf_color` (app.py line 256): `SUCCESS if monthly_cf > 0 else DANGER`. -/
def cf_color (monthly_cf : ℚ) : Color :=
  if monthly_cf > 0 then Color.SUCCESS else Color.DANGER

/-- The rendered Cash-Flow Highlight block: its two rows, the text color the
table style assigns to each of its two columns, and its background color. -/
structure CashflowBlock where
  rows : List (String × String)
  textColors : List Color
  background : Color
deriving DecidableEq, Repr

/-- The Cash-Flow Highlight section as rendered (app.py lines 252-274). The
table style sets `TEXTCOLOR ... WHITE` for both columns and `BACKGROUND NAVY`
for all cells; the sign-dependent `cf_color` computed on line 256 is not
referenced by any style command, so it never reaches the rendered block. -/
def cashflowBlock (monthly_cf : ℚ) (annualText : String) : CashflowBlock :=
  let _cf_color := cf_color monthly_cf
  { rows := [("MONTHLY CASH FLOW", format_currency (some (round monthly_cf))),
             ("ANNUAL CASH FLOW", annualText)],
    textColors := [Color.WHITE, Color.WHITE],
    background := Color.NAVY }

/-- Two-digit rendering of `n % 100`, the fractional part of a `.2f` spec. -/
def pad2 (n : ℕ) : String :=
  if n < 10 then "0" ++ toString n else toString n

/-- Fixed-point rendering with two decimals, `f"{q:.2f}"`. (The tie-breaking
of Python float rounding is abstracted to rational rounding; no claim depends
on digits at a rounding boundary.) -/
def fixed2 (q : ℚ) : String :=
  let c : ℤ := round (q * 100)
  (if c < 0 then "-" else "") ++ toString (c.natAbs / 100) ++ "." ++ pad2 (c.natAbs % 100)

/-- `format_percent` (app.py lines 90-94) applied to a raw field value:
`None` is guarded to `"0.00%"`, numbers render as `f"{value * 100:.2f}%"`,
and a non-numeric value raises inside the format spec. -/
def format_percent_v (v : Value) : Except String String :=
  match v with
  | Value.null => Except.ok "0.00%"
  | v => do
    let q ← toNum v
    Except.ok (fixed2 (q * 100) ++ "%")

/-- `format_currency` applied to a raw field value: `None` is guarded to
`"$0"`, numbers render via `f"${amount:,.0f}"` (rounding of a fractional
amount abstracted to rational rounding), and a plain string raises inside
the format spec. -/
def format_currency_v (v : Value) : Except String String :=
  match v with
  | Value.null => Except.ok "$0"
  | v => do
    let q ← toNum v
    Except.ok (format_currency (some (round q)))

/-- `f"{v:,}"` (the square-footage cell, app.py line 203): `None` and plain
strings raise; for numbers the grouped integer rendering is kept (fractional
rendering abstracted — only definedness is claimed of this cell). -/
def fmtGrouped_v (v : Value) : Except String String :=
  do
    let q ← toNum v
    Except.ok ((if q < 0 then "-" else "") ++ insertCommas (toString (round q).natAbs))

/-- `f"{v:.2f}"` on a raw field value (the DSCR and GRM cells, app.py
lines 290-291): `None` and plain strings raise. -/
def fmtFixed2_v (v : Value) : Except String String :=
  do
    let q ← toNum v
    Except.ok (fixed2 q)

/-- Python `str(v)` / f-string interpolation of an arbitrary value: total.
(The exact rendering of numbers is abstracted; no claim depends on it.) -/
def pyStr : Value → String
  | Value.num q => toString q
  | Value.str s => s
  | Value.bool b => if b then "True" else "False"
  | Value.null => "None"

/-- The verdict tint as applied to the raw field value (app.py line 371):
Python `==` between different types is simply `False`, so any non-string
verdict value falls through every branch to `DANGER`. -/
def verdict_color_v : Value → Color
  | Value.str s => verdict_color s
  | _ => Color.DANGER

/-- One row of the Key Metrics table: texts of the four columns plus the
tint the color-coding loop assigns to the status cell. -/
structure MetricsRow where
  metric : String
  value : String
  target : String
  status : String
  statusColor : Color
deriving DecidableEq, Repr

/-- The parts of the generated report that the specification constrains. -/
structure Report where
  preparedFor : String
  address : String
  propertySummary : List (String × String)
  financial : List String
  cashflow : CashflowBlock
  metrics : List MetricsRow
  rules : List (String × String × Color)
  verdictText : String
  verdictColor : Color
  financing : List (String × String)
deriving DecidableEq, Repr

/-- Replace every occurrence of the single character `a` by `b`:
`str.replace(a, b)` for one-character patterns. -/
def replaceChar (s : List Char) (a b : Char) : List Char :=
  s.map (fun c => if c = a then b else c)

/-- Delete every occurrence of the single character `a`:
`str.replace(a, '')` for one-character patterns. -/
def dropChar (s : List Char) (a : Char) : List Char :=
  s.filter (fun c => c ≠ a)

/-- The sanitized address stem of the download filename (app.py line 69):
`property_address.replace(' ', '_').replace(',', '').replace('.', '')[:30]`. -/
def safe_address_route (addr : String) : String :=
  String.mk ((dropChar (dropChar (replaceChar addr.data ' ' '_') ',') '.').take 30)

/-- The sanitized address stem of the email attachment filename (app.py
line 492): `property_address.replace(' ', '_').replace(',', '')[:30]` —
periods are not stripped here. -/
def safe_address_email (addr : String) : String :=
  String.mk ((dropChar (replaceChar addr.data ' ' '_') ',').take 30)

/-- `send_email` (app.py lines 442-511), abstracted over the outcome the SMTP
transport would have: when `EMAIL_USER` or `EMAIL_PASSWORD` is empty the
function returns `True` without touching the transport; otherwise it runs the
transport, returns `True` on success, and re-raises its exception on failure.
The first component records whether the transport was attempted. -/
def send_email (emailUser emailPassword : String)
    (transport : Except String Unit) : Bool × Except String Bool :=
  if emailUser = "" ∨ emailPassword = "" then (false, Except.ok true)
  else
    match transport with
    | Except.ok _ => (true, Except.ok true)
    | Except.error e => (true, Except.error e)

/-- The field consumption of `generate_pdf` (app.py lines 113-439), in source
order. Every `data.get(key, default)` defaults only an absent key; a key that
is present with `None` or another non-numeric value flows into the subsequent
arithmetic, comparison or numeric format spec and raises there — modelled as
`Except.error`. Styling boilerplate that reads no input field is omitted. -/
def generate_pdf (data : Data) : Except String Report := do
  let preparedFor := pyStr (get data "userName" (Value.str "N/A"))
  let address :=
    pyStr (get data "propertyAddress" (Value.str "N/A")) ++ ", " ++
    pyStr (get data "propertyCity" (Value.str "")) ++ ", " ++
    pyStr (get data "propertyState" (Value.str "FL")) ++ " " ++
    pyStr (get data "propertyZip" (Value.str ""))
  let sqftText ← fmtGrouped_v (get data "sqft" (Value.num 0))
  let propertySummary : List (String × String) :=
    [("Address:", address),
     ("Property Type:", pyStr (get data "propertyType" (Value.str "N/A"))),
     ("Units:", pyStr (get data "numUnits" (Value.num 1))),
     ("Bedrooms / Bathrooms:",
       pyStr (get data "bedrooms" (Value.str "N/A")) ++ " / " ++
       pyStr (get data "bathrooms" (Value.str "N/A"))),
     ("Square Footage:", sqftText ++ " SF"),
     ("Year Built:", pyStr (get data "yearBuilt" (Value.str "N/A"))),
     ("Lot Size:", pyStr (get data "lotSize" (Value.num 0)) ++ " acres")]
  let purchasePrice ← format_currency_v (get data "purchasePrice" (Value.num 0))
  let monthlyRent ← format_currency_v (get data "grossRentMonthly" (Value.num 0))
  let downPayment ← format_currency_v (get data "downPayment" (Value.num 0))
  let rentN ← toNum (get data "grossRentMonthly" (Value.num 0))
  let vacN ← toNum (get data "vacancyRate" (Value.num 0))
  let vacancyLoss := format_currency (some (round (rentN * vacN * (-1))))
  let closingCosts ← format_currency_v (get data "closingCosts" (Value.num 0))
  let otherIncome ← format_currency_v (get data "otherIncomeMonthly" (Value.num 0))
  let rehabCosts ← format_currency_v (get data "rehabCosts" (Value.num 0))
  let effectiveIncome ← format_currency_v (get data "effectiveIncomeMonthly" (Value.num 0))
  let loanAmount ← format_currency_v (get data "loanAmount" (Value.num 0))
  let expensesN ← toNum (get data "totalExpensesMonthly" (Value.num 0))
  let operatingExpenses := format_currency (some (round (expensesN * (-1))))
  let totalCashNeeded ← format_currency_v (get data "totalCashNeeded" (Value.num 0))
  let noi ← format_currency_v (get data "noiMonthly" (Value.num 0))
  let paymentN ← toNum (get data "monthlyPayment" (Value.num 0))
  let mortgagePayment := format_currency (some (round (paymentN * (-1))))
  let financial := [purchasePrice, monthlyRent, downPayment, vacancyLoss,
    closingCosts, otherIncome, rehabCosts, effectiveIncome, loanAmount,
    operatingExpenses, totalCashNeeded, noi, mortgagePayment]
  let monthlyCf ← toNum (get data "monthlyCashFlow" (Value.num 0))
  let annualCf ← format_currency_v (get data "annualCashFlow" (Value.num 0))
  let cashflow := cashflowBlock monthlyCf annualCf
  let capV := get data "capRate" (Value.num 0)
  let capText ← format_percent_v capV
  let capN ← toNum capV
  let cocV := get data "cashOnCash" (Value.num 0)
  let cocText ← format_percent_v cocV
  let cocN ← toNum cocV
  let dscrText ← fmtFixed2_v (get data "dscr" (Value.num 0))
  let dscrN ← toNum (get data "dscr" (Value.num 0))
  let grmText ← fmtFixed2_v (get data "grm" (Value.num 0))
  let grmN ← toNum (get data "grm" (Value.num 0))
  let onePctV := get data "onePercentRule" (Value.num 0)
  let onePctText ← format_percent_v onePctV
  let onePctN ← toNum onePctV
  let metrics :=
    [MetricsRow.mk "Cap Rate" capText ">= 8%"
       (capRateStatus capN) (metric_status_color (capRateStatus capN)),
     MetricsRow.mk "Cash-on-Cash Return" cocText ">= 10%"
       (cashOnCashStatus cocN) (metric_status_color (cashOnCashStatus cocN)),
     MetricsRow.mk "Debt Service Coverage Ratio" dscrText ">= 1.25x"
       (dscrStatus dscrN) (metric_status_color (dscrStatus dscrN)),
     MetricsRow.mk "Gross Rent Multiplier" grmText "<= 12"
       (grmStatus grmN) (metric_status_color (grmStatus grmN)),
     MetricsRow.mk "1% Rule" onePctText ">= 1%"
       (onePercentStatus onePctN) (metric_status_color (onePercentStatus onePctN))]
  let r1 := rule1Label (truthy (get data "rule1Pass" (Value.bool false)))
  let r2 := rule2Label (truthy (get data "rule2Pass" (Value.bool false)))
  let r50 := rule50Label (truthy (get data "rule50Pass" (Value.bool false)))
  let r70 := rule70Label (truthy (get data "rule70Pass" (Value.bool false)))
  let rcf := cashFlowLabel (truthy (get data "cashFlowPositivePass" (Value.bool false)))
  let rules :=
    [("1% Rule", r1, rule_result_color r1),
     ("2% Rule", r2, rule_result_color r2),
     ("50% Rule", r50, rule_result_color r50),
     ("70% Rule (Flip)", r70, rule_result_color r70),
     ("Cash Flow Positive", rcf, rule_result_color rcf)]
  let verdictV := get data "verdict" (Value.str "REVIEW")
  let interestRate ← format_percent_v (get data "interestRate" (Value.num 0))
  let loanTerm := pyStr (get data "loanTermYears" (Value.num 30)) ++ " years"
  let dppN ← toNum (get data "downPaymentPercent" (Value.num 0))
  let downPct := toString (round (dppN * 100) : ℤ) ++ "%"
  let ltv := toString (round ((1 - dppN) * 100) : ℤ) ++ "%"
  let monthlyPI ← format_currency_v (get data "monthlyPayment" (Value.num 0))
  let annualDS ← format_currency_v (get data "annualDebtService" (Value.num 0))
  let financing :=
    [("Interest Rate:", interestRate),
     ("Loan Term:", loanTerm),
     ("Down Payment:", downPct),
     ("LTV Ratio:", ltv),
     ("Monthly P&I:", monthlyPI),
     ("Annual Debt Service:", annualDS)]
  Except.ok
    { preparedFor := preparedFor
      address := address
      propertySummary := propertySummary
      financial := financial
      cashflow := cashflow
      metrics := metrics
      rules := rules
      verdictText := pyStr verdictV
      verdictColor := verdict_color_v verdictV
      financing := financing }

/-! ### Helper lemmas -/

theorem threeTierTop {v a b : ℚ} {t m bot : String} (htm : t ≠ m) (htb : t ≠ bot) :
    ((if v ≥ a then t else if v ≥ b then m else bot) = t) ↔ v ≥ a := by
  split_ifs with h1 h2
  · simp [h1]
  · simpa [Ne.symm htm] using h1
  · simpa [Ne.symm htb] using h1

theorem threeTierMid {v a b : ℚ} {t m bot : String}
    (htm : t ≠ m) (hmb : m ≠ bot) :
    ((if v ≥ a then t else if v ≥ b then m else bot) = m) ↔ (b ≤ v ∧ v < a) := by
  split_ifs with h1 h2
  · simp only [htm, false_iff]
    rintro ⟨-, hv⟩
    exact absurd h1 (not_le.mpr hv)
  · simp only [true_iff]
    exact ⟨h2, not_le.mp h1⟩
  · simp only [Ne.symm hmb, false_iff]
    rintro ⟨hv, -⟩
    exact h2 hv

theorem threeTierBot {v a b : ℚ} (hba : b ≤ a) {t m bot : String}
    (htb : t ≠ bot) (hmb : m ≠ bot) :
    ((if v ≥ a then t else if v ≥ b then m else bot) = bot) ↔ v < b := by
  split_ifs with h1 h2
  · simp only [htb, false_iff, not_lt]
    exact hba.trans h1
  · simp only [hmb, false_iff, not_lt]
    exact h2
  · simp [not_le.mp h2]

theorem twoTierTopGe {v a : ℚ} {t bot : String} (htb : t ≠ bot) :
    ((if v ≥ a then t else bot) = t) ↔ v ≥ a := by
  split_ifs with h1
  · simp [h1]
  · simpa [Ne.symm htb] using h1

theorem twoTierBotGe {v a : ℚ} {t bot : String} (htb : t ≠ bot) :
    ((if v ≥ a then t else bot) = bot) ↔ v < a := by
  split_ifs with h1
  · simpa [htb] using not_lt.mpr h1
  · simpa using not_le.mp h1

theorem twoTierTopLe {v a : ℚ} {t bot : String} (htb : t ≠ bot) :
    ((if v ≤ a then t else bot) = t) ↔ v ≤ a := by
  split_ifs with h1
  · simp [h1]
  · simpa [Ne.symm htb] using h1

theorem twoTierBotLe {v a : ℚ} {t bot : String} (htb : t ≠ bot) :
    ((if v ≤ a then t else bot) = bot) ↔ a < v := by
  split_ifs with h1
  · simpa [htb] using not_lt.mpr h1
  · simpa using not_le.mp h1

/-! ### Claims -/

/-- **C1.** In the Key Metrics section the five status labels are computed
exactly by the stated thresholds — cap rate `GOOD` iff ≥ 8%, `AVERAGE` iff in
[6%, 8%), else `LOW`; cash-on-cash `GOOD` iff ≥ 10%, `AVERAGE` iff in
[6%, 10%), else `LOW`; DSCR `STRONG` iff ≥ 1.25, `MARGINAL` iff in [1, 1.25),
else `WEAK`; GRM `GOOD` iff ≤ 12 with no mid tier; 1% rule `PASS` iff ≥ 1%
with no mid tier — and each row's status cell is tinted `SUCCESS` for a
top-tier label, `WARNING` for a mid-tier label, and `DANGER` otherwise. -/
theorem keyMetrics_statuses_spec (c coc d g p : ℚ) :
    (capRateStatus c = "GOOD" ↔ c ≥ 8/100) ∧
    (capRateStatus c = "AVERAGE" ↔ (6/100 ≤ c ∧ c < 8/100)) ∧
    (capRateStatus c = "LOW" ↔ c < 6/100) ∧
    (cashOnCashStatus coc = "GOOD" ↔ coc ≥ 10/100) ∧
    (cashOnCashStatus coc = "AVERAGE" ↔ (6/100 ≤ coc ∧ coc < 10/100)) ∧
    (cashOnCashStatus coc = "LOW" ↔ coc < 6/100) ∧
    (dscrStatus d = "STRONG" ↔ d ≥ 125/100) ∧
    (dscrStatus d = "MARGINAL" ↔ (1 ≤ d ∧ d < 125/100)) ∧
    (dscrStatus d = "WEAK" ↔ d < 1) ∧
    (grmStatus g = "GOOD" ↔ g ≤ 12) ∧
    (grmStatus g = "HIGH" ↔ 12 < g) ∧
    (onePercentStatus p = "PASS" ↔ p ≥ 1/100) ∧
    (onePercentStatus p = "FAIL" ↔ p < 1/100) ∧
    (metric_status_color (capRateStatus c) =
      if c ≥ 8/100 then Color.SUCCESS
      else if c ≥ 6/100 then Color.WARNING else Color.DANGER) ∧
    (metric_status_color (cashOnCashStatus coc) =
      if coc ≥ 10/100 then Color.SUCCESS
      else if coc ≥ 6/100 then Color.WARNING else Color.DANGER) ∧
    (metric_status_color (dscrStatus d) =
      if d ≥ 125/100 then Color.SUCCESS
      else if d ≥ 1 then Color.WARNING else Color.DANGER) ∧
    (metric_status_color (grmStatus g) =
      if g ≤ 12 then Color.SUCCESS else Color.DANGER) ∧
    (metric_status_color (onePercentStatus p) =
      if p ≥ 1/100 then Color.SUCCESS else Color.DANGER) := by
  refine ⟨?_, ?_, ?_, ?_, ?_, ?_, ?_, ?_, ?_, ?_, ?_, ?_, ?_, ?_, ?_, ?_, ?_, ?_⟩
  · simp only [capRateStatus]
    exact threeTierTop (by decide) (by decide)
  · simp only [capRateStatus]
    exact threeTierMid (by decide) (by decide)
  · simp only [capRateStatus]
    exact threeTierBot (by norm_num) (by decide) (by decide)
  · simp only [cashOnCashStatus]
    exact threeTierTop (by decide) (by decide)
  · simp only [cashOnCashStatus]
    exact threeTierMid (by decide) (by decide)
  · simp only [cashOnCashStatus]
    exact threeTierBot (by norm_num) (by decide) (by decide)
  · simp only [dscrStatus]
    exact threeTierTop (by decide) (by decide)
  · simp only [dscrStatus]
    exact threeTierMid (by decide) (by decide)
  · simp only [dscrStatus]
    exact threeTierBot (by norm_num) (by decide) (by decide)
  · simp only [grmStatus]
    exact twoTierTopLe (by decide)
  · simp only [grmStatus]
    exact twoTierBotLe (by decide)
  · simp only [onePercentStatus]
    exact twoTierTopGe (by decide)
  · simp only [onePercentStatus]
    exact twoTierBotGe (by decide)
  · by_cases h1 : c ≥ 8/100
    · simp [capRateStatus, metric_status_color, h1]
    · by_cases h2 : c ≥ 6/100 <;> simp [capRateStatus, metric_status_color, h1, h2]
  · by_cases h1 : coc ≥ 10/100
    · simp [cashOnCashStatus, metric_status_color, h1]
    · by_cases h2 : coc ≥ 6/100 <;> simp [cashOnCashStatus, metric_status_color, h1, h2]
  · by_cases h1 : d ≥ 125/100
    · simp [dscrStatus, metric_status_color, h1]
    · by_cases h2 : d ≥ 1 <;> simp [dscrStatus, metric_status_color, h1, h2]
  · by_cases h1 : g ≤ 12 <;> simp [grmStatus, metric_status_color, h1]
  · simp only [onePercentStatus, metric_status_color]
    split_ifs <;> simp_all

/-- **C2.** In the Quick Rules Check section a `True` rule boolean always
yields a favorable-tinted label (`PASS` or `YES`); a `False` value yields
`REVIEW` with the cautionary tint for the 50% rule only, and `FAIL` or `NO`
with the unfavorable tint for every other rule; a rule boolean that is
missing from the payload behaves as `False`. -/
theorem quickRules_results_spec (b : Bool) :
    (rule1Label b = "PASS" ↔ b = true) ∧ (rule1Label b = "FAIL" ↔ b = false) ∧
    (rule2Label b = "PASS" ↔ b = true) ∧ (rule2Label b = "FAIL" ↔ b = false) ∧
    (rule50Label b = "PASS" ↔ b = true) ∧ (rule50Label b = "REVIEW" ↔ b = false) ∧
    (rule70Label b = "PASS" ↔ b = true) ∧ (rule70Label b = "FAIL" ↔ b = false) ∧
    (cashFlowLabel b = "YES" ↔ b = true) ∧ (cashFlowLabel b = "NO" ↔ b = false) ∧
    (rule_result_color (rule1Label b) = if b then Color.SUCCESS else Color.DANGER) ∧
    (rule_result_color (rule2Label b) = if b then Color.SUCCESS else Color.DANGER) ∧
    (rule_result_color (rule50Label b) = if b then Color.SUCCESS else Color.WARNING) ∧
    (rule_result_color (rule70Label b) = if b then Color.SUCCESS else Color.DANGER) ∧
    (rule_result_color (cashFlowLabel b) = if b then Color.SUCCESS else Color.DANGER) ∧
    (∀ k : String, get [] k (Value.bool false) = Value.bool false) ∧
    truthy (Value.bool false) = false ∧ truthy Value.null = false := by
  cases b <;>
    refine ⟨?_, ?_, ?_, ?_, ?_, ?_, ?_, ?_, ?_, ?_, ?_, ?_, ?_, ?_, ?_, ?_, ?_, ?_⟩ <;>
    first
      | exact fun k => rfl
      | decide

/-- **C3.** The Deal Verdict tint is a pure function of the verdict string
with exactly four outcomes — `STRONG BUY` gets the favorable tint, `CONSIDER`
the informational cyan, `REVIEW` the cautionary tint, and every other string
the unfavorable tint — and a missing verdict field defaults to `REVIEW`,
hence the cautionary tint. -/
theorem verdict_tint_spec (s : String) :
    (verdict_color s = Color.SUCCESS ↔ s = "STRONG BUY") ∧
    (verdict_color s = Color.CYAN ↔ s = "CONSIDER") ∧
    (verdict_color s = Color.WARNING ↔ s = "REVIEW") ∧
    (verdict_color s = Color.DANGER ↔
      (s ≠ "STRONG BUY" ∧ s ≠ "CONSIDER" ∧ s ≠ "REVIEW")) ∧
    get [] "verdict" (Value.str "REVIEW") = Value.str "REVIEW" ∧
    verdict_color_v (get [] "verdict" (Value.str "REVIEW")) = Color.WARNING := by
  refine ⟨?_, ?_, ?_, ?_, rfl, rfl⟩ <;>
  · unfold verdict_color
    split_ifs <;> simp_all

/-- **C4 (code bug).** The sign-based tint is computed (`cf_color`) but never
applied to the Cash-Flow Highlight block: at monthly cash flow −100 the
computed tint is `DANGER`, yet the rendered block's text colors are
`WHITE`/`WHITE` on a `NAVY` background — identical to a positive cash flow —
and `DANGER` appears nowhere in the block, including when the block is built
through the full `generate_pdf` pipeline. -/
theorem cashflow_tint_not_rendered :
    cf_color (-100) = Color.DANGER ∧
    (cashflowBlock (-100) "$-1,200").textColors = [Color.WHITE, Color.WHITE] ∧
    Color.DANGER ∉ (cashflowBlock (-100) "$-1,200").textColors ∧
    (cashflowBlock (-100) "$-1,200").background = Color.NAVY ∧
    cf_color 250 = Color.SUCCESS ∧
    (cashflowBlock 250 "$3,000").textColors = (cashflowBlock (-100) "$-1,200").textColors ∧
    (generate_pdf [("monthlyCashFlow", Value.num (-100))]).map
      (fun r => r.cashflow.textColors) = Except.ok [Color.WHITE, Color.WHITE] := by
  refine ⟨by decide, rfl, by decide, rfl, by decide, rfl, rfl⟩

/-- **C5 counterexample.** A negative amount renders with the minus sign
*after* the dollar sign: `format_currency(-500)` is `"$-500"`, not the
claimed `"-$500"`. -/
theorem format_currency_neg500_cex :
    format_currency (some (-500)) = "$-500" ∧
    format_currency (some (-500)) ≠ "-$500" := by
  decide

/-- **C5 (amended).** `format_currency` returns `"$0"` for `None`, renders a
non-negative amount as `"$"` followed by the thousands-grouped integer
(`format_currency(1234567) = "$1,234,567"`), and renders a negative amount
with the minus sign between the dollar sign and the digits, so
`format_currency(-500) = "$-500"`. -/
theorem format_currency_spec :
    format_currency none = "$0" ∧
    format_currency (some 1234567) = "$1,234,567" ∧
    format_currency (some (-500)) = "$-500" ∧
    (∀ n : ℕ, format_currency (some (n : ℤ)) = "$" ++ insertCommas (toString n)) ∧
    (∀ n : ℕ, format_currency (some (-(n : ℤ) - 1)) = "$-" ++ insertCommas (toString (n + 1))) := by
  refine ⟨rfl, by decide, by decide, fun n => ?_, fun n => ?_⟩
  · simp only [format_currency]
    rw [if_neg (by omega), show ((n : ℤ)).natAbs = n from by omega]
  · simp only [format_currency]
    rw [if_pos (by omega), show (-(n : ℤ) - 1).natAbs = n + 1 from by omega]

/-- **C6 counterexample.** With a supplied warn threshold of 0 the middle
tier is not produced even though the value clears it: at value 1/2, good
threshold 1, warn threshold 0 (higher is better), the value misses the good
threshold and clears the warn threshold, yet the result is `DANGER`, not
`WARNING`. -/
theorem get_status_color_zero_warn_cex :
    get_status_color (1/2) 1 (some 0) true = Color.DANGER ∧
    get_status_color (1/2) 1 (some 0) true ≠ Color.WARNING ∧
    (1/2 : ℚ) < 1 ∧ (0 : ℚ) ≤ 1/2 := by
  refine ⟨?_, ?_, by norm_num, by norm_num⟩ <;>
    norm_num [get_status_color, warnHit] <;> decide

/-- **C6 (amended).** `get_status_color` returns the top tier iff the value
clears the good threshold in the favorable direction (`≥` when higher is
better, `≤` otherwise), the middle tier iff the good threshold is missed and
a *nonzero* warn threshold is supplied and cleared, and the bottom tier
otherwise; with no warn threshold only top and bottom are reachable. The
claim's concrete examples hold. -/
theorem get_status_color_spec (v g w : ℚ) :
    (∀ wo : Option ℚ, get_status_color v g wo true = Color.SUCCESS ↔ v ≥ g) ∧
    (∀ wo : Option ℚ, get_status_color v g wo false = Color.SUCCESS ↔ v ≤ g) ∧
    (get_status_color v g (some w) true = Color.WARNING ↔
      (¬ v ≥ g ∧ w ≠ 0 ∧ v ≥ w)) ∧
    (get_status_color v g (some w) false = Color.WARNING ↔
      (¬ v ≤ g ∧ w ≠ 0 ∧ v ≤ w)) ∧
    (get_status_color v g (some w) true = Color.DANGER ↔
      (¬ v ≥ g ∧ ¬ (w ≠ 0 ∧ v ≥ w))) ∧
    (get_status_color v g (some w) false = Color.DANGER ↔
      (¬ v ≤ g ∧ ¬ (w ≠ 0 ∧ v ≤ w))) ∧
    (∀ b : Bool, get_status_color v g none b ≠ Color.WARNING) ∧
    get_status_color (8/100) (8/100) (some (6/100)) true = Color.SUCCESS ∧
    get_status_color (7/100) (8/100) (some (6/100)) true = Color.WARNING ∧
    get_status_color (5/100) (8/100) (some (6/100)) true = Color.DANGER ∧
    get_status_color 12 12 none false = Color.SUCCESS ∧
    get_status_color 13 12 none false = Color.DANGER := by
  refine ⟨fun wo => ?_, fun wo => ?_, ?_, ?_, ?_, ?_, fun b => ?_,
    by norm_num [get_status_color, warnHit],
    by norm_num [get_status_color, warnHit],
    by norm_num [get_status_color, warnHit],
    by norm_num [get_status_color, warnHit],
    by norm_num [get_status_color, warnHit]⟩
  · simp only [get_status_color]
    split_ifs <;> simp_all
  · simp only [get_status_color]
    split_ifs <;> simp_all
  · simp only [get_status_color, warnHit]
    split_ifs <;> simp_all
  · simp only [get_status_color, warnHit]
    split_ifs <;> simp_all
  · simp only [get_status_color, warnHit]
    split_ifs <;> simp_all
  · simp only [get_status_color, warnHit]
    split_ifs <;> simp_all
  · cases b <;> simp only [get_status_color, warnHit] <;> split_ifs <;> simp_all

/-- **C7 counterexample.** A field that is present with a null value is not
defaulted: with payload `{dscr: null}` the pipeline raises at the numeric
format spec `f"{dscr:.2f}"` instead of substituting 0. -/
theorem generate_pdf_null_dscr_cex :
    generate_pdf [("dscr", Value.null)] =
      Except.error "TypeError: NoneType is not a number" := by
  rfl

theorem get_num_of_numeric {data : Data}
    (h : ∀ kv ∈ data, ∃ q, kv.snd = Value.num q) (k : String) (q0 : ℚ) :
    ∃ q, get data k (Value.num q0) = Value.num q := by
  unfold get
  cases hf : data.find? (fun kv => kv.fst = k) with
  | none => exact ⟨q0, rfl⟩
  | some kv => exact h kv (List.mem_of_find?_eq_some hf)

/-- **C7 (amended).** Report generation substitutes the documented defaults
for *absent* fields — the empty payload generates successfully — and is total
on every payload whose present fields are numeric; but a field that is
present with a null (or other non-numeric) value is not defaulted and the
pipeline raises, as the counterexample `{dscr: null}` shows. -/
theorem generate_pdf_total_on_numeric :
    (∃ r, generate_pdf [] = Except.ok r) ∧
    ∀ data : Data, (∀ kv ∈ data, ∃ q, kv.snd = Value.num q) →
      ∃ r, generate_pdf data = Except.ok r := by
  refine ⟨⟨_, rfl⟩, fun data h => ?_⟩
  obtain ⟨q1, e1⟩ := get_num_of_numeric h "sqft" 0
  obtain ⟨q2, e2⟩ := get_num_of_numeric h "purchasePrice" 0
  obtain ⟨q3, e3⟩ := get_num_of_numeric h "grossRentMonthly" 0
  obtain ⟨q4, e4⟩ := get_num_of_numeric h "downPayment" 0
  obtain ⟨q5, e5⟩ := get_num_of_numeric h "vacancyRate" 0
  obtain ⟨q6, e6⟩ := get_num_of_numeric h "closingCosts" 0
  obtain ⟨q7, e7⟩ := get_num_of_numeric h "otherIncomeMonthly" 0
  obtain ⟨q8, e8⟩ := get_num_of_numeric h "rehabCosts" 0
  obtain ⟨q9, e9⟩ := get_num_of_numeric h "effectiveIncomeMonthly" 0
  obtain ⟨q10, e10⟩ := get_num_of_numeric h "loanAmount" 0
  obtain ⟨q11, e11⟩ := get_num_of_numeric h "totalExpensesMonthly" 0
  obtain ⟨q12, e12⟩ := get_num_of_numeric h "totalCashNeeded" 0
  obtain ⟨q13, e13⟩ := get_num_of_numeric h "noiMonthly" 0
  obtain ⟨q14, e14⟩ := get_num_of_numeric h "monthlyPayment" 0
  obtain ⟨q15, e15⟩ := get_num_of_numeric h "monthlyCashFlow" 0
  obtain ⟨q16, e16⟩ := get_num_of_numeric h "annualCashFlow" 0
  obtain ⟨q17, e17⟩ := get_num_of_numeric h "capRate" 0
  obtain ⟨q18, e18⟩ := get_num_of_numeric h "cashOnCash" 0
  obtain ⟨q19, e19⟩ := get_num_of_numeric h "dscr" 0
  obtain ⟨q20, e20⟩ := get_num_of_numeric h "grm" 0
  obtain ⟨q21, e21⟩ := get_num_of_numeric h "onePercentRule" 0
  obtain ⟨q22, e22⟩ := get_num_of_numeric h "interestRate" 0
  obtain ⟨q23, e23⟩ := get_num_of_numeric h "downPaymentPercent" 0
  obtain ⟨q24, e24⟩ := get_num_of_numeric h "annualDebtService" 0
  simp only [generate_pdf, e1, e2, e3, e4, e5, e6, e7, e8, e9, e10, e11, e12,
    e13, e14, e15, e16, e17, e18, e19, e20, e21, e22, e23, e24]
  exact ⟨_, rfl⟩

/-- Witness for the amended C7: a payload whose one present field is numeric
generates successfully. -/
theorem generate_pdf_total_on_numeric_witness :
    ∃ r, generate_pdf [("dscr", Value.num 2)] = Except.ok r :=
  generate_pdf_total_on_numeric.2 [("dscr", Value.num 2)]
    (by
      intro kv hkv
      rcases List.mem_singleton.mp hkv with rfl
      exact ⟨2, rfl⟩)

/-- **C8 counterexample.** The email attachment's sanitized stem keeps
periods: for the spec's example address the email path yields
`"123_Main_St._Apt_#4"`, which contains a period. -/
theorem email_filename_period_cex :
    safe_address_email "123 Main St., Apt #4" = "123_Main_St._Apt_#4" ∧
    '.' ∈ (safe_address_email "123 Main St., Apt #4").data := by
  decide

/-- **C8 (amended).** For every property address, the download response's
sanitized stem contains no spaces, commas, or periods and is at most 30
characters; the email attachment's sanitized stem contains no spaces or
commas and is at most 30 characters, but periods are not stripped there. -/
theorem filename_sanitization_spec (addr : String) :
    ' ' ∉ (safe_address_route addr).data ∧
    ',' ∉ (safe_address_route addr).data ∧
    '.' ∉ (safe_address_route addr).data ∧
    (safe_address_route addr).length ≤ 30 ∧
    ' ' ∉ (safe_address_email addr).data ∧
    ',' ∉ (safe_address_email addr).data ∧
    (safe_address_email addr).length ≤ 30 := by
  refine ⟨?_, ?_, ?_, ?_, ?_, ?_, ?_⟩
  · intro hmem
    have h1 : ' ' ∈ dropChar (dropChar (replaceChar addr.data ' ' '_') ',') '.' :=
      List.take_subset _ _ hmem
    simp only [dropChar, replaceChar, List.mem_filter, List.mem_map] at h1
    obtain ⟨⟨⟨ch, -, hc⟩, -⟩, -⟩ := h1
    split_ifs at hc with hch
    · exact absurd hc (by decide)
    · exact hch hc
  · intro hmem
    have h1 : ',' ∈ dropChar (dropChar (replaceChar addr.data ' ' '_') ',') '.' :=
      List.take_subset _ _ hmem
    simp [dropChar, replaceChar, List.mem_filter, List.mem_map] at h1
  · intro hmem
    have h1 : '.' ∈ dropChar (dropChar (replaceChar addr.data ' ' '_') ',') '.' :=
      List.take_subset _ _ hmem
    simp [dropChar, List.mem_filter] at h1
  · show (List.take 30 _).length ≤ 30
    rw [List.length_take]
    exact min_le_left _ _
  · intro hmem
    have h1 : ' ' ∈ dropChar (replaceChar addr.data ' ' '_') ',' :=
      List.take_subset _ _ hmem
    simp only [dropChar, replaceChar, List.mem_filter, List.mem_map] at h1
    obtain ⟨⟨ch, -, hc⟩, -⟩ := h1
    split_ifs at hc with hch
    · exact absurd hc (by decide)
    · exact hch hc
  · intro hmem
    have h1 : ',' ∈ dropChar (replaceChar addr.data ' ' '_') ',' :=
      List.take_subset _ _ hmem
    simp [dropChar, List.mem_filter] at h1
  · show (List.take 30 _).length ≤ 30
    rw [List.length_take]
    exact min_le_left _ _

/-- **C9.** `send_email` returns success without attempting any transport
whenever the mail user or password is empty, and otherwise attempts the
transport and propagates its failure to the caller by re-raising. -/
theorem send_email_spec (u p e : String) (t : Except String Unit) :
    ((u = "" ∨ p = "") → send_email u p t = (false, Except.ok true)) ∧
    (u ≠ "" → p ≠ "" → send_email u p (Except.error e) = (true, Except.error e)) ∧
    (u ≠ "" → p ≠ "" → send_email u p (Except.ok ()) = (true, Except.ok true)) := by
  refine ⟨fun h => ?_, fun h1 h2 => ?_, fun h1 h2 => ?_⟩ <;>
    simp [send_email, *]

/-- Witness for C9: concrete credential configurations exercising the no-op,
re-raise, and success branches. -/
theorem send_email_spec_witness :
    send_email "" "pw" (Except.ok ()) = (false, Except.ok true) ∧
    send_email "user" "pw" (Except.error "connection refused") =
      (true, Except.error "connection refused") ∧
    send_email "user" "pw" (Except.ok ()) = (true, Except.ok true) :=
  ⟨(send_email_spec "" "pw" "x" (Except.ok ())).1 (Or.inl rfl),
   (send_email_spec "user" "pw" "connection refused"
      (Except.error "connection refused")).2.1 (by decide) (by decide),
   (send_email_spec "user" "pw" "x" (Except.ok ())).2.2 (by decide) (by decide)⟩

/-- **C10.** A warn threshold equal to 0 is falsy in Python and therefore
behaves exactly like an absent warn threshold: `get_status_color(0.5, 1, 0,
higher_is_better=True)` is the bottom tier even though 0.5 clears 0, a zero
warn threshold never yields the middle tier, and the zero-threshold and
no-threshold classifications agree everywhere. -/
theorem zero_warn_threshold_disables_mid (v g : ℚ) :
    get_status_color (1/2) 1 (some 0) true = Color.DANGER ∧
    (∀ b : Bool, get_status_color v g (some 0) b = get_status_color v g none b) ∧
    (∀ b : Bool, get_status_color v g (some 0) b ≠ Color.WARNING) := by
  refine ⟨by norm_num [get_status_color, warnHit], fun b => ?_, fun b => ?_⟩ <;>
    cases b <;> simp only [get_status_color, warnHit] <;> split_ifs <;> simp_all

end App
